import Mathlib

/-!
Verification of the pyavfcam capture-session manager (`src/src/modules/avf.h`).

The repository ships only the class declaration of `CppAVFCam` (five native
handle members, copy constructor, destructor, copy-assignment by value with a
nothrow `swap` friend, and the operations `set_settings`, `record`,
`file_output_done`, `sample_buffer`).  The implementation file is not part of
the sources, so the behaviour of each operation is modelled from the
specification (`spec.md`) and checked against it; the handle layout and the
copy/swap signatures are taken from the header itself.
-/

/-- Error kinds of the capture core (spec §7). -/
inductive AVFError
  | enumerationError
  | deviceNotFoundError
  | deviceBusyError
  | unsupportedFormatError
  | notConfiguredError
  | notCapturingError
  | recordingInProgressError
  | staleErrorError
  | nativeResourceError
deriving DecidableEq, Repr

/-- A capture format: width × height in pixels and a frame rate (spec §3).
The header declares `set_settings(unsigned int, unsigned int, float)`; the
frame rate is modelled as a rational number, compared exactly as the spec's
exact-match policy requires. -/
structure Format where
  width : Nat
  height : Nat
  fps : ℚ
deriving DecidableEq, Repr

/-- Recording lifecycle states (spec §4.4). -/
inductive RecState
  | idle
  | recording
  | finalizing
  | error
deriving DecidableEq, Repr

/-- Modelled from the spec: the observable state of a `CppAVFCam` capture
session (spec §3 CaptureSession and Recording).  The implementation behind the
header's native-handle members is missing from the sources, so the state is
the spec's: a device binding, an active format, the capturing flag, the
recording state machine with its destination path and last error, a frame-sink
registration flag, and the identifier of the shared native resource. -/
structure Session where
  device : Option Nat
  format : Option Format
  capturing : Bool
  recState : RecState
  recPath : Option String
  lastError : Option AVFError
  sink : Bool
  handle : Nat
deriving DecidableEq, Repr

/-- A session is configured once device and format are both set (spec §3). -/
def Session.configured (s : Session) : Bool :=
  s.device.isSome && s.format.isSome

/-- A recording is active while the state machine is writing or closing the
file (spec §4.4: `Recording` and `Finalizing`). -/
def Session.recActive (s : Session) : Bool :=
  s.recState = RecState.recording || s.recState = RecState.finalizing

/-- The fresh, unconfigured session produced by the default constructor. -/
def Session.init (h : Nat) : Session :=
  { device := none, format := none, capturing := false,
    recState := RecState.idle, recPath := none, lastError := none,
    sink := false, handle := h }

/-- Modelled from the spec: `configure` / `set_settings` (spec §4.2; the
header declares `CppAVFCam::set_settings` but its body is missing).  The
requested `(width, height, fps)` is validated against the device's supported
formats under the documented exact-match policy; no match fails with
`UnsupportedFormatError`, a busy device fails with `DeviceBusyError`, and
reconfiguring during active capture is rejected (spec §3 invariant).  A failed
call returns the prior session state unchanged (spec §7: no partial
mutation). -/
def configure (formatsOf : Nat → List Format) (busy : Nat → Bool)
    (dev : Nat) (w h : Nat) (fps : ℚ) (s : Session) :
    Option AVFError × Session :=
  let f : Format := ⟨w, h, fps⟩
  if f ∈ formatsOf dev then
    if busy dev then
      (some AVFError.deviceBusyError, s)
    else if s.capturing then
      (some AVFError.deviceBusyError, s)
    else
      (none, { s with device := some dev, format := some f })
  else
    (some AVFError.unsupportedFormatError, s)

/-- Modelled from the spec: `start()` (spec §4.2; no implementation in the
sources).  Fails with `NotConfiguredError` before `configure`; a no-op when
already capturing; otherwise sets the capturing flag. -/
def start (s : Session) : Option AVFError × Session :=
  if s.configured then
    if s.capturing then (none, s)
    else (none, { s with capturing := true })
  else
    (some AVFError.notConfiguredError, s)

/-- Modelled from the spec: `stop()` (spec §4.2; no implementation in the
sources).  A no-op when no session is open/configured or when already stopped;
otherwise an active recording is moved to `Finalizing` first (spec §4.4) and
the capturing flag is cleared.  Never an error. -/
def stop (s : Session) : Option AVFError × Session :=
  if !s.configured || !s.capturing then
    (none, s)
  else
    let s1 := if s.recState = RecState.recording
      then { s with recState := RecState.finalizing } else s
    (none, { s1 with capturing := false })

/-- Modelled from the spec: `record(path)` (spec §4.2 and §4.4; the header
declares `CppAVFCam::record` but its body is missing).  Requires a capturing
session (`NotCapturingError` otherwise); fails with `RecordingInProgressError`
when a recording is already active; in the `Error` state the documented
default policy auto-resets the state machine, so the call transitions to
`Recording`. -/
def record (path : String) (s : Session) : Option AVFError × Session :=
  if !s.capturing then
    (some AVFError.notCapturingError, s)
  else if s.recActive then
    (some AVFError.recordingInProgressError, s)
  else
    (none, { s with recState := RecState.recording,
                    recPath := some path, lastError := none })

/-- Modelled from the spec: the `file_output_finished` callback,
`CppAVFCam::file_output_done(bool error)` in the header (spec §4.3, §4.4; no
implementation in the sources).  The native file close passes through
`Finalizing`; without an error the machine ends in `Idle` and the recording is
reset, with an error it ends in `Error` with the failure recorded.  The first
component lists the states traversed, in order. -/
def file_output_done (err : Bool) (s : Session) :
    List RecState × Session :=
  if s.recActive then
    if err then
      ([RecState.finalizing, RecState.error],
       { s with recState := RecState.error,
                lastError := some AVFError.nativeResourceError })
    else
      ([RecState.finalizing, RecState.idle],
       { s with recState := RecState.idle,
                recPath := none, lastError := none })
  else
    ([], s)

/-- Events at the frame-delivery boundary (spec §4.3): an asynchronous
`frame_ready(buffer)` from the platform, handled by `CppAVFCam::sample_buffer`,
or the caller registering a frame sink (`register_frame_sink`, spec §4.2). -/
inductive FrameEvent
  | frameReady (buf : Nat)
  | registerSink
deriving DecidableEq, Repr

/-- Modelled from the spec: `CppAVFCam::sample_buffer` handling one
`frame_ready` event (spec §4.3; no implementation in the sources): the buffer
is forwarded to the registered sink, if any, and dropped otherwise — the
session keeps no frame buffer, so a dropped frame leaves it unchanged.  The
second component is the list of buffers handed to the sink. -/
def sample_buffer (s : Session) (buf : Nat) : Session × List Nat :=
  if s.sink then (s, [buf]) else (s, [])

/-- Modelled from the spec: processing a sequence of frame-boundary events in
platform delivery order (spec §4.3 and §5: in-order, no buffering).  Returns
the final session and the concatenation of everything delivered to the
sink. -/
def processEvents (s : Session) : List FrameEvent → Session × List Nat
  | [] => (s, [])
  | FrameEvent.frameReady b :: rest =>
      let p := sample_buffer s b
      let q := processEvents p.1 rest
      (q.1, p.2 ++ q.2)
  | FrameEvent.registerSink :: rest =>
      processEvents { s with sink := true } rest

/-- The handle layout of `CppAVFCam` as declared in the header: the five
native pointer members, each modelled as an optional handle identifier. -/
structure CppAVFCam where
  m_pSession : Option Nat
  m_pDevice : Option Nat
  m_pCapture : Option Nat
  m_pVideoInput : Option Nat
  m_pVideoFileOutput : Option Nat
deriving DecidableEq, Repr

/-- Modelled from the spec: the nothrow `swap` friend of the header
(`friend void swap(CppAVFCam&, CppAVFCam&)`; no implementation in the
sources).  It exchanges the five native handle members of the two objects and
nothing else; as a total function it cannot fail.  The result pairs the new
states of `first` and `second`. -/
def swapCam (first second : CppAVFCam) : CppAVFCam × CppAVFCam :=
  (⟨second.m_pSession, second.m_pDevice, second.m_pCapture,
    second.m_pVideoInput, second.m_pVideoFileOutput⟩,
   ⟨first.m_pSession, first.m_pDevice, first.m_pCapture,
    first.m_pVideoInput, first.m_pVideoFileOutput⟩)

/-- Modelled from the spec: the copy constructor
`CppAVFCam(const CppAVFCam&)` (no implementation in the sources).  Copying
shares the reference-counted native handles; acquiring the native resource can
fail, which `copyOk` stands for — on failure no object is produced. -/
def copyCtor (copyOk : Bool) (s : CppAVFCam) : Option CppAVFCam :=
  if copyOk then some s else none

/-- Modelled from the spec: copy-assignment
`CppAVFCam & operator=(CppAVFCam other)` (spec §9 copy-then-swap; no
implementation in the sources).  The by-value parameter first copy-constructs
a temporary from the source; if that fails the error surfaces and the target
is untouched, otherwise the temporary's handles are swapped into the target.
Returns the reported error, if any, and the new state of the target. -/
def assignCam (copyOk : Bool) (target source : CppAVFCam) :
    Option AVFError × CppAVFCam :=
  match copyCtor copyOk source with
  | none => (some AVFError.nativeResourceError, target)
  | some other => (none, (swapCam target other).1)

/-- Modelled from the spec: the world of live session objects sharing
reference-counted native resources (spec §3 ownership contract; the
constructor/destructor bodies are missing from the sources).  `sessions` maps
object identifiers to session states, `refcount` counts the owners of each
native handle, `released` counts how many times each native handle has been
released, and `nextId` is the next fresh object identifier. -/
structure World where
  sessions : Nat → Option Session
  refcount : Nat → Nat
  released : Nat → Nat
  nextId : Nat

/-- Modelled from the spec: copy construction of a live session object (no
implementation in the sources).  The copy gets a fresh identifier, duplicates
the observable state, and shares the native resource by bumping its reference
count.  Returns the new world and the copy's identifier. -/
def copyCam (w : World) (i : Nat) : World × Nat :=
  match w.sessions i with
  | none => (w, i)
  | some s =>
      ({ sessions := fun j => if j = w.nextId then some s else w.sessions j,
         refcount := fun h =>
           if h = s.handle then w.refcount h + 1 else w.refcount h,
         released := w.released,
         nextId := w.nextId + 1 }, w.nextId)

/-- `start()` invoked on the live object `i`: only that object's observable
state is updated (spec §9 value-semantics isolation). -/
def startCam (w : World) (i : Nat) : World :=
  match w.sessions i with
  | none => w
  | some s =>
      { w with sessions := fun j =>
          if j = i then some (start s).2 else w.sessions j }

/-- Modelled from the spec: the destructor `~CppAVFCam()` (no implementation
in the sources).  The object is removed and its share of the native resource
given up; the last owner releases the native resource (spec §3: independent
destructibility without double release). -/
def destroyCam (w : World) (i : Nat) : World :=
  match w.sessions i with
  | none => w
  | some s =>
      { w with
        sessions := fun j => if j = i then none else w.sessions j,
        refcount := fun h =>
          if h = s.handle then w.refcount h - 1 else w.refcount h,
        released :=
          if w.refcount s.handle ≤ 1 then
            fun h => if h = s.handle then w.released h + 1 else w.released h
          else w.released }

/-- Copy-construct a live session object and call `start()` on the copy:
the resulting world and the copy's identifier. -/
def copyThenStart (w : World) (i : Nat) : World × Nat :=
  (startCam (copyCam w i).1 (copyCam w i).2, (copyCam w i).2)

/-- Concrete fixture: a configured, non-capturing session. -/
def cfgSession : Session :=
  { Session.init 2 with device := some 0, format := some ⟨640, 480, 30⟩ }

/-- Concrete fixture: a capturing session with an active recording. -/
def recSession : Session :=
  { cfgSession with capturing := true, recState := RecState.recording,
                    recPath := some "out.mov" }

/-- Concrete fixture: a capturing session whose recording failed. -/
def errSession : Session :=
  { cfgSession with capturing := true, recState := RecState.error,
                    lastError := some AVFError.nativeResourceError }

/-- Concrete fixture: a world holding the configured session as object 0,
sole owner of native handle 2. -/
def world0 : World :=
  { sessions := fun j => if j = 0 then some cfgSession else none,
    refcount := fun h => if h = 2 then 1 else 0,
    released := fun _ => 0,
    nextId := 1 }

/-- Claim C1: a `configure` call whose `(width, height, fps)` format is absent
from the device's supported-format list fails with `UnsupportedFormatError`
and returns the session exactly as it was — device binding, format, capturing
flag and recording state included (atomicity on error). -/
theorem configure_unsupported_atomic
    (formatsOf : Nat → List Format) (busy : Nat → Bool)
    (dev w h : Nat) (fps : ℚ) (s : Session)
    (hmem : (⟨w, h, fps⟩ : Format) ∉ formatsOf dev) :
    configure formatsOf busy dev w h fps s =
      (some AVFError.unsupportedFormatError, s) := by
  simp [configure, hmem]

/-- Witness for C1 at a concrete device catalog and session. -/
theorem configure_unsupported_atomic_witness :
    (⟨320, 240, 15⟩ : Format) ∉ [(⟨640, 480, 30⟩ : Format)] ∧
    configure (fun _ => [(⟨640, 480, 30⟩ : Format)]) (fun _ => false)
        0 320 240 15 (Session.init 7) =
      (some AVFError.unsupportedFormatError, Session.init 7) :=
  ⟨by decide,
   configure_unsupported_atomic (fun _ => [(⟨640, 480, 30⟩ : Format)])
     (fun _ => false) 0 320 240 15 (Session.init 7) (by decide)⟩

/-- Claim C2: from the `Recording` state, `file_output_done` with no error
passes through `Finalizing` and ends in `Idle` with no error reported to the
caller; with an error it passes through `Finalizing` and ends in `Error`. -/
theorem file_output_done_finalizes
    (s : Session) (hrec : s.recState = RecState.recording) :
    (file_output_done false s).1 = [RecState.finalizing, RecState.idle] ∧
    (file_output_done false s).2.recState = RecState.idle ∧
    (file_output_done false s).2.lastError = none ∧
    (file_output_done true s).1 = [RecState.finalizing, RecState.error] ∧
    (file_output_done true s).2.recState = RecState.error := by
  simp [file_output_done, Session.recActive, hrec]

/-- Witness for C2 at a concrete recording session. -/
theorem file_output_done_finalizes_witness :
    recSession.recState = RecState.recording ∧
    ((file_output_done false recSession).1 =
      [RecState.finalizing, RecState.idle] ∧
    (file_output_done false recSession).2.recState = RecState.idle ∧
    (file_output_done false recSession).2.lastError = none ∧
    (file_output_done true recSession).1 =
      [RecState.finalizing, RecState.error] ∧
    (file_output_done true recSession).2.recState = RecState.error) :=
  ⟨rfl, file_output_done_finalizes recSession rfl⟩

/-- Claim C5: `record` fails with `NotCapturingError` on a non-capturing
session, fails with `RecordingInProgressError` when a recording is already
active, and succeeds exactly when the session is capturing and no recording is
active; every failure leaves the session unchanged. -/
theorem record_preconditions (path : String) (s : Session) :
    (s.capturing = false →
      record path s = (some AVFError.notCapturingError, s)) ∧
    (s.capturing = true → s.recActive = true →
      record path s = (some AVFError.recordingInProgressError, s)) ∧
    ((record path s).1 = none ↔
      (s.capturing = true ∧ s.recActive = false)) := by
  refine ⟨fun h => by simp [record, h], fun h1 h2 => by simp [record, h1, h2],
    ?_⟩
  by_cases h1 : s.capturing <;> by_cases h2 : s.recActive <;>
    simp [record, h1, h2]

/-- Witness for C5: a non-capturing session is refused with
`NotCapturingError`. -/
theorem record_preconditions_witness :
    (Session.init 0).capturing = false ∧
    record "clip.mov" (Session.init 0) =
      (some AVFError.notCapturingError, Session.init 0) :=
  ⟨rfl, (record_preconditions "clip.mov" (Session.init 0)).1 rfl⟩

/-- Claim C6: `record` on a capturing session whose state machine is in
`Error` follows the documented auto-reset default: it succeeds and transitions
to `Recording` (it does not fail with `StaleErrorError`); the transition holds
for every such session and path, hence on every such call. -/
theorem record_error_auto_resets (path : String) (s : Session)
    (hcap : s.capturing = true) (herr : s.recState = RecState.error) :
    record path s =
      (none, { s with recState := RecState.recording,
                      recPath := some path, lastError := none }) := by
  simp [record, Session.recActive, hcap, herr]

/-- Witness for C6 at a concrete capturing session left in `Error`. -/
theorem record_error_auto_resets_witness :
    errSession.capturing = true ∧
    errSession.recState = RecState.error ∧
    record "again.mov" errSession =
      (none, { errSession with recState := RecState.recording,
                               recPath := some "again.mov",
                               lastError := none }) :=
  ⟨rfl, rfl, record_error_auto_resets "again.mov" errSession rfl rfl⟩

/-- Claim C7: on a configured session, calling `start()` twice gives the very
same outcome and state as calling it once (the second call is a no-op, not an
error); on a session never configured, `start()` fails with
`NotConfiguredError`. -/
theorem start_idempotent (s : Session) :
    (s.configured = true → start (start s).2 = start s) ∧
    (s.configured = false →
      start s = (some AVFError.notConfiguredError, s)) := by
  constructor
  · intro h
    simp only [Session.configured, Bool.and_eq_true] at h
    by_cases hc : s.capturing = true <;>
      simp [start, Session.configured, h.1, h.2, hc]
  · intro h
    simp [start, h]

/-- Witness for C7 at a configured session and at the fresh session. -/
theorem start_idempotent_witness :
    cfgSession.configured = true ∧
    start (start cfgSession).2 = start cfgSession ∧
    (Session.init 2).configured = false ∧
    start (Session.init 2) =
      (some AVFError.notConfiguredError, Session.init 2) :=
  ⟨rfl, (start_idempotent cfgSession).1 rfl, rfl,
   (start_idempotent (Session.init 2)).2 rfl⟩

/-- Claim C9: `stop()` on a session with no open or configured device succeeds
as a no-op and leaves the state unchanged; on any already-stopped session it
is likewise a no-op; and `stop` is idempotent outright. -/
theorem stop_noop_idempotent (s : Session) :
    (s.device = none → stop s = (none, s)) ∧
    (s.capturing = false → stop s = (none, s)) ∧
    stop (stop s).2 = stop s := by
  refine ⟨fun h => by simp [stop, Session.configured, h], fun h => by
    simp [stop, h], ?_⟩
  by_cases h1 : s.configured
  · by_cases h2 : s.capturing
    · by_cases h3 : s.recState = RecState.recording <;>
        simp [stop, h1, h2, h3]
    · simp [stop, h2]
  · simp [stop, h1]

/-- Witness for C9 at the fresh (unconfigured, stopped) session. -/
theorem stop_noop_idempotent_witness :
    (Session.init 4).device = none ∧
    stop (Session.init 4) = (none, Session.init 4) :=
  ⟨rfl, (stop_noop_idempotent (Session.init 4)).1 rfl⟩

/-- While no sink is registered, `frame_ready` events deliver nothing and
leave the session unchanged, so later events behave as if they had never
happened. -/
theorem processEvents_dropped (s : Session) (hs : s.sink = false)
    (fs : List Nat) (rest : List FrameEvent) :
    processEvents s (fs.map FrameEvent.frameReady ++ rest) =
      processEvents s rest := by
  induction fs with
  | nil => simp
  | cons a tl ih => simp [processEvents, sample_buffer, hs, ih]

/-- With a sink registered, `frame_ready` events deliver every buffer in
order and leave the session unchanged. -/
theorem processEvents_delivered (s : Session) (hs : s.sink = true)
    (gs : List Nat) :
    processEvents s (gs.map FrameEvent.frameReady) = (s, gs) := by
  induction gs with
  | nil => simp [processEvents]
  | cons a tl ih => simp [processEvents, sample_buffer, hs, ih]

/-- Claim C8: frames delivered while no sink is registered are dropped
without error and without buffering (nothing is handed out and the session is
unchanged), and registering a sink afterwards delivers exactly the frames
arriving after registration — never the previously dropped ones. -/
theorem frames_without_sink_dropped (s : Session) (hs : s.sink = false)
    (fs gs : List Nat) :
    processEvents s (fs.map FrameEvent.frameReady) = (s, []) ∧
    (processEvents s (fs.map FrameEvent.frameReady ++
        FrameEvent.registerSink :: gs.map FrameEvent.frameReady)).2 = gs := by
  constructor
  · have h := processEvents_dropped s hs fs []
    simpa [processEvents] using h
  · rw [processEvents_dropped s hs fs]
    simp [processEvents, processEvents_delivered]

/-- Witness for C8: two frames dropped on the fresh session, then a sink
registration, then two frames delivered. -/
theorem frames_without_sink_dropped_witness :
    (Session.init 6).sink = false ∧
    (processEvents (Session.init 6)
        ([10, 11].map FrameEvent.frameReady) = (Session.init 6, []) ∧
    (processEvents (Session.init 6)
        ([10, 11].map FrameEvent.frameReady ++ FrameEvent.registerSink ::
          [12, 13].map FrameEvent.frameReady)).2 = [12, 13]) :=
  ⟨rfl, frames_without_sink_dropped (Session.init 6) rfl [10, 11] [12, 13]⟩

/-- Claim C4: assignment is copy-then-swap.  Self-assignment leaves the
object's state exactly as it was, and when constructing the temporary copy
fails the target's state is untouched (exception safety), for every target and
source. -/
theorem assign_self_and_exception_safe (s t src : CppAVFCam) :
    assignCam true s s = (none, s) ∧ (assignCam false t src).2 = t :=
  ⟨rfl, rfl⟩

/-- Claim C10: `swap` exchanges the five native handle members of the two
objects and nothing else — the first object takes exactly the second's members
and vice versa — it is a total (hence nothrow) function, and applying it twice
restores both objects to their original states. -/
theorem swapCam_exchanges_involutive (a b : CppAVFCam) :
    (swapCam a b).1 = b ∧ (swapCam a b).2 = a ∧
    swapCam (swapCam a b).1 (swapCam a b).2 = (a, b) :=
  ⟨rfl, rfl, rfl⟩

/-- Claim C3: copy-constructing a configured, non-capturing session and
calling `start()` on the copy leaves the original object's observable state
untouched, and destroying the two objects afterwards — in either order —
releases the shared native resource exactly once, never twice. -/
theorem copy_start_isolated_no_double_release
    (w : World) (i : Nat) (s : Session)
    (hs : w.sessions i = some s)
    (hconf : s.configured = true)
    (hcap : s.capturing = false)
    (hfresh : w.sessions w.nextId = none)
    (hrc : w.refcount s.handle = 1)
    (hrel : w.released s.handle = 0) :
    (copyThenStart w i).1.sessions i = some s ∧
    (destroyCam (destroyCam (copyThenStart w i).1 i)
        (copyThenStart w i).2).released s.handle = 1 ∧
    (destroyCam (destroyCam (copyThenStart w i).1 (copyThenStart w i).2)
        i).released s.handle = 1 := by
  have hne : i ≠ w.nextId := by
    intro h
    rw [h, hfresh] at hs
    cases hs
  have hne' : w.nextId ≠ i := Ne.symm hne
  refine ⟨?_, ?_, ?_⟩ <;>
    simp [copyThenStart, copyCam, startCam, destroyCam, start,
      hs, hfresh, hne, hne', hrc, hrel, hconf, hcap]

/-- Witness for C3 at the concrete one-session world. -/
theorem copy_start_isolated_no_double_release_witness :
    world0.sessions 0 = some cfgSession ∧
    cfgSession.configured = true ∧
    cfgSession.capturing = false ∧
    world0.sessions world0.nextId = none ∧
    world0.refcount cfgSession.handle = 1 ∧
    world0.released cfgSession.handle = 0 ∧
    ((copyThenStart world0 0).1.sessions 0 = some cfgSession ∧
    (destroyCam (destroyCam (copyThenStart world0 0).1 0)
        (copyThenStart world0 0).2).released cfgSession.handle = 1 ∧
    (destroyCam (destroyCam (copyThenStart world0 0).1
        (copyThenStart world0 0).2) 0).released cfgSession.handle = 1) :=
  ⟨rfl, rfl, rfl, rfl, rfl, rfl,
   copy_start_isolated_no_double_release world0 0 cfgSession
     rfl rfl rfl rfl rfl rfl⟩
